import Mathlib

/-!
Verification of the summarization retry loop of `LangGraphapp.py`
(`summarize_text`, the single node of the LangGraph pipeline).

The Python function is:

  def summarize_text(state: SummaryState) -> SummaryState:
      text = state["text"]
      headers = {"Authorization": f"Bearer {API_TOKEN}"}
      payload = {"inputs": text}
      for attempt in range(3):
          response = requests.post(API_URL, headers=headers, json=payload)
          if response.status_code == 200:
              summary = response.json()[0]["summary_text"]
              return {"text": text, "summary": summary}
          elif response.status_code == 503:
              st.warning(f"Service temporarily unavailable (503). Retry {attempt+1}/3")
              time.sleep(2)
          else:
              st.error(f"Error summarizing: {response.status_code}, {response.text}")
              return {"text": text, "summary": response.text}
      st.error("Summarization service unavailable after multiple attempts.")
      return {"text": text, "summary": "Summarization failed."}

The embedding below models the remote endpoint as a function from the
attempt index to an optional HTTP response (`none` models `requests.post`
raising a transport-level exception), and the observable side channel
(requests issued, `st.warning` / `st.error` messages, `time.sleep` calls)
as a trace of events.  Python exceptions escaping the function are
modelled with `Except PyExc`.
-/

/-- A JSON value, as produced by `response.json()`.  Numbers are modelled
abstractly by integers; no claim depends on numeric values. -/
inductive Json where
  | jnull : Json
  | jbool : Bool → Json
  | jnum : Int → Json
  | jstr : String → Json
  | jarr : List Json → Json
  | jobj : List (String × Json) → Json

/-- Python exceptions that can escape `summarize_text`: a transport fault
raised by `requests.post`, a body that is not valid JSON (raised by
`response.json()`), and the lookup errors raised by `[0]` and
`["summary_text"]` on a value of the wrong shape. -/
inductive PyExc where
  | requestException : PyExc
  | jsonDecodeError : PyExc
  | indexError : PyExc
  | keyError : PyExc
  | typeError : PyExc

/-- One HTTP response, as seen through the `requests` response object:
`status_code`, the raw body `text`, and `jsonV`, the result of
`response.json()` (`none` when the body is not valid JSON, in which case
`response.json()` raises). -/
structure Response where
  status_code : Nat
  text : String
  jsonV : Option Json

/-- The LangGraph node state: `class SummaryState(TypedDict): text: str;
summary: str`.  The `summary` field is modelled as a `Json` value because
Python does not enforce the `str` annotation: the success branch stores
whatever `response.json()[0]["summary_text"]` evaluates to; the other
branches store strings (wrapped in `Json.jstr`). -/
structure SummaryState where
  text : String
  summary : Json

/-- Observable side effects of one call, in order: a request issued by
`requests.post` (carrying the input text of the `{"inputs": text}`
payload), an `st.warning` message, a `time.sleep` call (seconds), and an
`st.error` message. -/
inductive Event where
  | post : String → Event
  | warning : String → Event
  | sleepSeconds : Nat → Event
  | errorLog : String → Event

/-- `response.json()`: returns the parsed body or raises when the body is
not valid JSON. -/
def jsonOf (r : Response) : Except PyExc Json :=
  match r.jsonV with
  | some j => .ok j
  | none => .error .jsonDecodeError

/-- Python `j[0]` on a JSON value: first element of a list (IndexError
when empty), first character of a string (IndexError when empty), KeyError
on a dict without key `0`, TypeError otherwise. -/
def pyIndexZero : Json → Except PyExc Json
  | .jarr (x :: _) => .ok x
  | .jarr [] => .error .indexError
  | .jstr s => if s.isEmpty then .error .indexError else .ok (.jstr (String.singleton s.front))
  | .jobj _ => .error .keyError
  | _ => .error .typeError

/-- Python `j["summary_text"]`-style subscription: dict lookup (KeyError
when the key is absent), TypeError on non-dict values. -/
def pyGetItem (j : Json) (key : String) : Except PyExc Json :=
  match j with
  | .jobj fields =>
    match fields.lookup key with
    | some v => .ok v
    | none => .error .keyError
  | _ => .error .typeError

/-- `response.json()[0]["summary_text"]`, the success-branch extraction. -/
def extractSummaryText (r : Response) : Except PyExc Json := do
  let j ← jsonOf r
  let first ← pyIndexZero j
  pyGetItem first "summary_text"

/-- The `st.warning` message of the 503 branch:
`f"Service temporarily unavailable (503). Retry {attempt+1}/3"`. -/
def retryWarnMsg (attempt : Nat) : String :=
  "Service temporarily unavailable (503). Retry " ++ toString (attempt + 1) ++ "/3"

/-- The `st.error` message of the non-retryable branch:
`f"Error summarizing: {response.status_code}, {response.text}"`. -/
def clientErrMsg (r : Response) : String :=
  "Error summarizing: " ++ toString r.status_code ++ ", " ++ r.text

/-- The `st.error` message emitted after the loop exhausts all attempts. -/
def exhaustedMsg : String := "Summarization service unavailable after multiple attempts."

/-- The `for attempt in range(3)` loop of `summarize_text`, run over the
list of remaining attempt indices.  `endpoint i` is the response received
by the request of attempt `i` (`none` models `requests.post` raising).
Returns the trace of observable events together with either the returned
`SummaryState` or the Python exception that escapes. -/
def summarizeLoop (text : String) (endpoint : Nat → Option Response) :
    List Nat → List Event × Except PyExc SummaryState
  | [] =>
    ([.errorLog exhaustedMsg], .ok { text := text, summary := .jstr "Summarization failed." })
  | attempt :: rest =>
    match endpoint attempt with
    | none => ([.post text], .error .requestException)
    | some response =>
      if response.status_code = 200 then
        match extractSummaryText response with
        | .ok summary => ([.post text], .ok { text := text, summary := summary })
        | .error e => ([.post text], .error e)
      else if response.status_code = 503 then
        let next := summarizeLoop text endpoint rest
        (.post text :: .warning (retryWarnMsg attempt) :: .sleepSeconds 2 :: next.1, next.2)
      else
        ([.post text, .errorLog (clientErrMsg response)],
         .ok { text := text, summary := .jstr response.text })

/-- `summarize_text`: reads `state["text"]` and runs the retry loop for
attempts `0, 1, 2` (`range(3)`). -/
def summarize_text (state : SummaryState) (endpoint : Nat → Option Response) :
    List Event × Except PyExc SummaryState :=
  summarizeLoop state.text endpoint (List.range 3)

/-- Whether an event is a request issued to the endpoint. -/
def isPost : Event → Bool
  | .post _ => true
  | _ => false

/-- Whether an event is a backoff wait. -/
def isSleep : Event → Bool
  | .sleepSeconds _ => true
  | _ => false

/-- Number of request attempts recorded in a trace. -/
def postCount (tr : List Event) : Nat := (tr.filter isPost).length

/-- Number of backoff waits recorded in a trace. -/
def sleepCount (tr : List Event) : Nat := (tr.filter isSleep).length

/-- Does the first character list start with the second? -/
def charsStartWith : List Char → List Char → Bool
  | _, [] => true
  | [], _ :: _ => false
  | a :: as, b :: bs => a == b && charsStartWith as bs

/-- Does the first character list contain the second as a contiguous run? -/
def charsContain : List Char → List Char → Bool
  | s, sub =>
    match s with
    | [] => sub.isEmpty
    | _ :: rest => charsStartWith s sub || charsContain rest sub

/-- Substring containment on strings, for the failure-detail claims. -/
def strContains (s sub : String) : Bool := charsContain s.data sub.data

theorem range_three : List.range 3 = [0, 1, 2] := rfl

/-- The parsed JSON body `[{"summary_text": s}]` of a successful response. -/
def okBody (s : String) : Json := .jarr [.jobj [("summary_text", .jstr s)]]

/-- Mock endpoint that always answers 503. -/
def endpointAll503 : Nat → Option Response := fun _ => some { status_code := 503, text := "busy", jsonV := none }

/-- Mock endpoint whose transport always fails (`requests.post` raises). -/
def endpointDown : Nat → Option Response := fun _ => none

/-- Mock endpoint that answers 400 with body `"bad request"`. -/
def endpoint400 : Nat → Option Response := fun _ => some { status_code := 400, text := "bad request", jsonV := none }

/-- Mock endpoint that answers 400 with body `"Summarization failed."`. -/
def endpoint400FailText : Nat → Option Response :=
  fun _ => some { status_code := 400, text := "Summarization failed.", jsonV := none }

/-- Mock endpoint answering 503, 503, then 200 with body `[{"summary_text": "OK"}]`. -/
def endpoint503Then200 : Nat → Option Response := fun i =>
  if i < 2 then some { status_code := 503, text := "loading", jsonV := none }
  else some { status_code := 200, text := "[\x7b\"summary_text\": \"OK\"\x7d]", jsonV := some (okBody "OK") }

/-- Mock endpoint answering 200 with the malformed body `[]` (no first element). -/
def endpointEmptyArr : Nat → Option Response :=
  fun _ => some { status_code := 200, text := "[]", jsonV := some (.jarr []) }

example : strContains "Error summarizing: 400, bad request" "400" = true := by decide
example : strContains "bad request" "400" = false := by decide

example :
    summarize_text { text := "t", summary := .jstr "" } endpointAll503 =
      ([.post "t", .warning (retryWarnMsg 0), .sleepSeconds 2,
        .post "t", .warning (retryWarnMsg 1), .sleepSeconds 2,
        .post "t", .warning (retryWarnMsg 2), .sleepSeconds 2,
        .errorLog exhaustedMsg],
       .ok { text := "t", summary := .jstr "Summarization failed." }) := rfl

example :
    (summarize_text { text := "t", summary := .jstr "" } endpoint503Then200).2 =
      .ok { text := "t", summary := .jstr "OK" } := rfl

example :
    (summarize_text { text := "t", summary := .jstr "" } endpointDown).2 =
      .error .requestException := rfl

example :
    (summarize_text { text := "t", summary := .jstr "" } endpointEmptyArr).2 =
      .error .indexError := rfl

example :
    summarize_text { text := "t", summary := .jstr "" } endpoint400 =
      ([.post "t", .errorLog "Error summarizing: 400, bad request"],
       .ok { text := "t", summary := .jstr "bad request" }) := rfl

/-- Helper: a run whose three attempts all receive a 503 response produces
the full retry trace and the fallback state. -/
theorem loop_all_retryable (text : String) (endpoint : Nat → Option Response)
    (r0 r1 r2 : Response)
    (h0 : endpoint 0 = some r0) (h1 : endpoint 1 = some r1) (h2 : endpoint 2 = some r2)
    (s0 : r0.status_code = 503) (s1 : r1.status_code = 503) (s2 : r2.status_code = 503) :
    summarizeLoop text endpoint [0, 1, 2] =
      ([.post text, .warning (retryWarnMsg 0), .sleepSeconds 2,
        .post text, .warning (retryWarnMsg 1), .sleepSeconds 2,
        .post text, .warning (retryWarnMsg 2), .sleepSeconds 2,
        .errorLog exhaustedMsg],
       .ok { text := text, summary := .jstr "Summarization failed." }) := by
  simp [summarizeLoop, h0, h1, h2, s0, s1, s2]

/-- Helper: a first-attempt response whose status is neither 200 nor 503
short-circuits with the client-error trace and result. -/
theorem loop_client_error (text : String) (endpoint : Nat → Option Response)
    (r : Response) (h0 : endpoint 0 = some r)
    (hn200 : r.status_code ≠ 200) (hn503 : r.status_code ≠ 503) :
    summarizeLoop text endpoint [0, 1, 2] =
      ([.post text, .errorLog (clientErrMsg r)],
       .ok { text := text, summary := .jstr r.text }) := by
  simp [summarizeLoop, h0, hn200, hn503]

/-- Helper: one loop iteration receiving a 503 response warns, sleeps and
continues with the remaining attempts. -/
theorem loop_step_503 (text : String) (endpoint : Nat → Option Response)
    (attempt : Nat) (rest : List Nat) (r : Response)
    (h : endpoint attempt = some r) (s : r.status_code = 503) :
    summarizeLoop text endpoint (attempt :: rest) =
      (.post text :: .warning (retryWarnMsg attempt) :: .sleepSeconds 2 ::
        (summarizeLoop text endpoint rest).1,
       (summarizeLoop text endpoint rest).2) := by
  simp [summarizeLoop, h, s]

/-- Helper: one loop iteration receiving a 200 response whose body is
`[{"summary_text": s}]` returns `Success` with output `s` at once. -/
theorem loop_step_200 (text : String) (endpoint : Nat → Option Response)
    (attempt : Nat) (rest : List Nat) (body s : String)
    (h : endpoint attempt = some { status_code := 200, text := body, jsonV := some (okBody s) }) :
    summarizeLoop text endpoint (attempt :: rest) =
      ([.post text], .ok { text := text, summary := .jstr s }) := by
  simp [summarizeLoop, h, extractSummaryText, jsonOf, okBody, pyIndexZero, pyGetItem,
    List.lookup, bind, Except.bind]

/-- C1: for every input text, if every request attempt made by
`summarize_text` receives a retryable (503) response, then exactly 3
request attempts are issued and the function returns the exhausted-retries
failure result, whose summary is the string "Summarization failed.". -/
theorem C1_all_retryable_exhausts (state : SummaryState) (endpoint : Nat → Option Response)
    (h : ∀ i, i < 3 → ∃ r, endpoint i = some r ∧ r.status_code = 503) :
    postCount (summarize_text state endpoint).1 = 3 ∧
    (summarize_text state endpoint).2 =
      .ok { text := state.text, summary := .jstr "Summarization failed." } := by
  obtain ⟨r0, h0, s0⟩ := h 0 (by omega)
  obtain ⟨r1, h1, s1⟩ := h 1 (by omega)
  obtain ⟨r2, h2, s2⟩ := h 2 (by omega)
  rw [summarize_text, range_three,
    loop_all_retryable state.text endpoint r0 r1 r2 h0 h1 h2 s0 s1 s2]
  exact ⟨rfl, rfl⟩

/-- Witness for C1 at the concrete always-503 endpoint. -/
theorem C1_witness :
    postCount (summarize_text { text := "t", summary := .jstr "" } endpointAll503).1 = 3 ∧
    (summarize_text { text := "t", summary := .jstr "" } endpointAll503).2 =
      .ok { text := "t", summary := .jstr "Summarization failed." } :=
  C1_all_retryable_exhausts { text := "t", summary := .jstr "" } endpointAll503
    (fun _ _ => ⟨{ status_code := 503, text := "busy", jsonV := none }, rfl, rfl⟩)

/-- C2: if the first `k - 1` attempts receive 503 and attempt `k`
(1 ≤ k ≤ 3) receives 200 with body `[{"summary_text": s}]`, then exactly
`k` request attempts are issued and the result is success with output
text `s`. -/
theorem C2_success_on_attempt_k (state : SummaryState) (endpoint : Nat → Option Response)
    (k : Nat) (s : String) (hk1 : 1 ≤ k) (hk3 : k ≤ 3)
    (hpre : ∀ i, i < k - 1 → ∃ r, endpoint i = some r ∧ r.status_code = 503)
    (hsucc : ∃ body, endpoint (k - 1) =
      some { status_code := 200, text := body, jsonV := some (okBody s) }) :
    postCount (summarize_text state endpoint).1 = k ∧
    (summarize_text state endpoint).2 = .ok { text := state.text, summary := .jstr s } := by
  obtain ⟨body, hs⟩ := hsucc
  rw [summarize_text, range_three]
  interval_cases k
  · rw [loop_step_200 state.text endpoint 0 [1, 2] body s hs]
    exact ⟨rfl, rfl⟩
  · obtain ⟨r0, h0, s0⟩ := hpre 0 (by omega)
    rw [loop_step_503 state.text endpoint 0 [1, 2] r0 h0 s0,
      loop_step_200 state.text endpoint 1 [2] body s hs]
    exact ⟨rfl, rfl⟩
  · obtain ⟨r0, h0, s0⟩ := hpre 0 (by omega)
    obtain ⟨r1, h1, s1⟩ := hpre 1 (by omega)
    rw [loop_step_503 state.text endpoint 0 [1, 2] r0 h0 s0,
      loop_step_503 state.text endpoint 1 [2] r1 h1 s1,
      loop_step_200 state.text endpoint 2 [] body s hs]
    exact ⟨rfl, rfl⟩

/-- Witness for C2 at the concrete endpoint answering 503, 503, then 200
with body `[{"summary_text": "OK"}]`: success "OK" after 3 attempts. -/
theorem C2_witness :
    postCount (summarize_text { text := "t", summary := .jstr "" } endpoint503Then200).1 = 3 ∧
    (summarize_text { text := "t", summary := .jstr "" } endpoint503Then200).2 =
      .ok { text := "t", summary := .jstr "OK" } :=
  C2_success_on_attempt_k { text := "t", summary := .jstr "" } endpoint503Then200 3 "OK"
    (by omega) (by omega)
    (fun i hi => ⟨{ status_code := 503, text := "loading", jsonV := none },
      by simp [endpoint503Then200]; omega, rfl⟩)
    ⟨"[\x7b\"summary_text\": \"OK\"\x7d]", rfl⟩

/-- C3: a non-retryable first-attempt response (status neither 200 nor
503) yields exactly 1 request attempt and the client-error failure result
(carrying the response body), immediately. -/
theorem C3_nonretryable_short_circuits (state : SummaryState) (endpoint : Nat → Option Response)
    (r : Response) (h0 : endpoint 0 = some r)
    (hn200 : r.status_code ≠ 200) (hn503 : r.status_code ≠ 503) :
    postCount (summarize_text state endpoint).1 = 1 ∧
    (summarize_text state endpoint).1 = [.post state.text, .errorLog (clientErrMsg r)] ∧
    (summarize_text state endpoint).2 = .ok { text := state.text, summary := .jstr r.text } := by
  rw [summarize_text, range_three, loop_client_error state.text endpoint r h0 hn200 hn503]
  exact ⟨rfl, rfl, rfl⟩

/-- Witness for C3 at the concrete 400 endpoint. -/
theorem C3_witness :
    postCount (summarize_text { text := "t", summary := .jstr "" } endpoint400).1 = 1 ∧
    (summarize_text { text := "t", summary := .jstr "" } endpoint400).1 =
      [.post "t", .errorLog (clientErrMsg { status_code := 400, text := "bad request", jsonV := none })] ∧
    (summarize_text { text := "t", summary := .jstr "" } endpoint400).2 =
      .ok { text := "t", summary := .jstr "bad request" } :=
  C3_nonretryable_short_circuits { text := "t", summary := .jstr "" } endpoint400
    { status_code := 400, text := "bad request", jsonV := none } rfl (by decide) (by decide)

/-- C4 counterexample: the claim says no response body produced by a
non-retryable error can make the client-error result equal the
exhausted-retries result; but a 400 response whose body is exactly
"Summarization failed." produces a returned result identical to the one
produced by three 503 responses. -/
theorem C4_counterexample :
    (summarize_text { text := "t", summary := .jstr "" } endpointAll503).2 =
      (summarize_text { text := "t", summary := .jstr "" } endpoint400FailText).2 := rfl

/-- C4 amended: the exhausted-retries result and the client-error result
are distinguishable by the caller unless the non-retryable response body
is exactly the string "Summarization failed.". -/
theorem C4_distinguishable_unless_collision (state : SummaryState)
    (eA eB : Nat → Option Response)
    (hA : ∀ i, i < 3 → ∃ r, eA i = some r ∧ r.status_code = 503)
    (r : Response) (hB : eB 0 = some r)
    (hn200 : r.status_code ≠ 200) (hn503 : r.status_code ≠ 503)
    (hbody : r.text ≠ "Summarization failed.") :
    (summarize_text state eA).2 ≠ (summarize_text state eB).2 := by
  obtain ⟨r0, h0, s0⟩ := hA 0 (by omega)
  obtain ⟨r1, h1, s1⟩ := hA 1 (by omega)
  obtain ⟨r2, h2, s2⟩ := hA 2 (by omega)
  have eA2 : (summarize_text state eA).2 =
      .ok { text := state.text, summary := .jstr "Summarization failed." } := by
    rw [summarize_text, range_three,
      loop_all_retryable state.text eA r0 r1 r2 h0 h1 h2 s0 s1 s2]
  have eB2 : (summarize_text state eB).2 =
      .ok { text := state.text, summary := .jstr r.text } := by
    rw [summarize_text, range_three, loop_client_error state.text eB r hB hn200 hn503]
  rw [eA2, eB2]
  simp only [Except.ok.injEq, SummaryState.mk.injEq, Json.jstr.injEq, ne_eq, not_and, true_and]
  intro hc
  exact hbody hc.symm

/-- Witness for the amended C4: all-503 versus a 400 whose body is "bad
request" give different returned results. -/
theorem C4_witness :
    (summarize_text { text := "t", summary := .jstr "" } endpointAll503).2 ≠
      (summarize_text { text := "t", summary := .jstr "" } endpoint400).2 :=
  C4_distinguishable_unless_collision { text := "t", summary := .jstr "" }
    endpointAll503 endpoint400
    (fun _ _ => ⟨{ status_code := 503, text := "busy", jsonV := none }, rfl, rfl⟩)
    { status_code := 400, text := "bad request", jsonV := none } rfl
    (by decide) (by decide) (by decide)

/-- C5 counterexample: on a 400 response with body "bad request" the
returned value's failure detail is exactly "bad request", which does not
contain the status code "400" — the claim that the returned detail
contains both is false. -/
theorem C5_counterexample :
    (summarize_text { text := "t", summary := .jstr "" } endpoint400).2 =
      .ok { text := "t", summary := .jstr "bad request" } ∧
    strContains "bad request" "400" = false := ⟨rfl, by decide⟩

/-- C5 amended: on a 400 response with body "bad request" the returned
failure detail contains the response body but not the status code; both
the status code and the body appear in the logged `st.error` message (the
side channel), which is not part of the returned value. -/
theorem C5_body_in_detail_status_in_log (state : SummaryState)
    (endpoint : Nat → Option Response) (j : Option Json)
    (h0 : endpoint 0 = some { status_code := 400, text := "bad request", jsonV := j }) :
    (summarize_text state endpoint).2 =
      .ok { text := state.text, summary := .jstr "bad request" } ∧
    strContains "bad request" "bad request" = true ∧
    strContains "bad request" "400" = false ∧
    (summarize_text state endpoint).1 =
      [.post state.text, .errorLog "Error summarizing: 400, bad request"] ∧
    strContains "Error summarizing: 400, bad request" "400" = true ∧
    strContains "Error summarizing: 400, bad request" "bad request" = true := by
  have h200 : ({ status_code := 400, text := "bad request", jsonV := j } : Response).status_code ≠ 200 := by
    simp
  have h503 : ({ status_code := 400, text := "bad request", jsonV := j } : Response).status_code ≠ 503 := by
    simp
  rw [summarize_text, range_three, loop_client_error state.text endpoint _ h0 h200 h503]
  refine ⟨rfl, by decide, by decide, ?_, by decide, by decide⟩
  show [Event.post state.text,
        Event.errorLog ("Error summarizing: " ++ toString (400 : Nat) ++ ", " ++ "bad request")] = _
  rfl

/-- Witness for the amended C5 at the concrete 400 endpoint. -/
theorem C5_witness :
    (summarize_text { text := "t", summary := .jstr "" } endpoint400).2 =
      .ok { text := "t", summary := .jstr "bad request" } ∧
    strContains "bad request" "bad request" = true ∧
    strContains "bad request" "400" = false ∧
    (summarize_text { text := "t", summary := .jstr "" } endpoint400).1 =
      [.post "t", .errorLog "Error summarizing: 400, bad request"] ∧
    strContains "Error summarizing: 400, bad request" "400" = true ∧
    strContains "Error summarizing: 400, bad request" "bad request" = true :=
  C5_body_in_detail_status_in_log { text := "t", summary := .jstr "" } endpoint400 none rfl

/-- C7 counterexample: a run of 3 consecutive 503 responses performs 3
backoff waits, not the 2 the claim states — the code sleeps after the
final attempt as well. -/
theorem C7_counterexample :
    sleepCount (summarize_text { text := "t", summary := .jstr "" } endpointAll503).1 = 3 ∧
    sleepCount (summarize_text { text := "t", summary := .jstr "" } endpointAll503).1 ≠ 2 :=
  ⟨rfl, by decide⟩

/-- C7 amended: the backoff is fixed (2 seconds, never exponential) and is
performed after every retryable response, including after the final
attempt: a run of 3 consecutive 503 responses performs exactly 3 waits of
2 seconds each. -/
theorem C7_fixed_backoff_after_every_503 (state : SummaryState)
    (endpoint : Nat → Option Response)
    (h : ∀ i, i < 3 → ∃ r, endpoint i = some r ∧ r.status_code = 503) :
    sleepCount (summarize_text state endpoint).1 = 3 ∧
    (summarize_text state endpoint).1.filter isSleep =
      [.sleepSeconds 2, .sleepSeconds 2, .sleepSeconds 2] := by
  obtain ⟨r0, h0, s0⟩ := h 0 (by omega)
  obtain ⟨r1, h1, s1⟩ := h 1 (by omega)
  obtain ⟨r2, h2, s2⟩ := h 2 (by omega)
  rw [summarize_text, range_three,
    loop_all_retryable state.text endpoint r0 r1 r2 h0 h1 h2 s0 s1 s2]
  exact ⟨rfl, rfl⟩

/-- Witness for the amended C7 at the concrete always-503 endpoint. -/
theorem C7_witness :
    sleepCount (summarize_text { text := "t", summary := .jstr "" } endpointAll503).1 = 3 ∧
    (summarize_text { text := "t", summary := .jstr "" } endpointAll503).1.filter isSleep =
      [.sleepSeconds 2, .sleepSeconds 2, .sleepSeconds 2] :=
  C7_fixed_backoff_after_every_503 { text := "t", summary := .jstr "" } endpointAll503
    (fun _ _ => ⟨{ status_code := 503, text := "busy", jsonV := none }, rfl, rfl⟩)

/-- C6 counterexample: `summarize_text` has no exception handling — a
transport fault on the first attempt escapes as an uncaught
`requests` exception, and a 200 response with the malformed body `[]`
escapes as an uncaught IndexError; neither is a structured result. -/
theorem C6_counterexample :
    (summarize_text { text := "t", summary := .jstr "" } endpointDown).2 =
      .error .requestException ∧
    (summarize_text { text := "t", summary := .jstr "" } endpointEmptyArr).2 =
      .error .indexError ∧
    (∀ st : SummaryState,
      (summarize_text { text := "t", summary := .jstr "" } endpointDown).2 ≠ .ok st) := by
  refine ⟨rfl, rfl, fun st h => ?_⟩
  rw [show (summarize_text { text := "t", summary := .jstr "" } endpointDown).2 =
      (Except.error .requestException : Except PyExc SummaryState) from rfl] at h
  exact absurd h (by simp)

/-- Helper: when every attempt in the list receives an HTTP response and
every 200 response among them has a body from which
`response.json()[0]["summary_text"]` extracts successfully, the loop
returns a structured state, never an exception. -/
theorem loop_structured (text : String) (endpoint : Nat → Option Response) :
    ∀ attempts : List Nat,
    (∀ a ∈ attempts, ∃ r, endpoint a = some r ∧
      (r.status_code = 200 → ∃ s, extractSummaryText r = .ok s)) →
    ∃ st, (summarizeLoop text endpoint attempts).2 = .ok st := by
  intro attempts
  induction attempts with
  | nil => exact fun _ => ⟨_, rfl⟩
  | cons a rest ih =>
    intro h
    obtain ⟨r, hr, w⟩ := h a (by simp)
    by_cases h200 : r.status_code = 200
    · obtain ⟨s, hs⟩ := w h200
      exact ⟨{ text := text, summary := s }, by simp [summarizeLoop, hr, h200, hs]⟩
    · by_cases h503 : r.status_code = 503
      · obtain ⟨st, hst⟩ := ih (fun b hb => h b (by simp [hb]))
        exact ⟨st, by simp [summarizeLoop, hr, h200, h503, hst]⟩
      · exact ⟨{ text := text, summary := .jstr r.text },
          by simp [summarizeLoop, hr, h200, h503]⟩

/-- C6 amended: `summarize_text` returns a structured result whenever no
transport fault occurs and every 200 response body is a JSON array whose
first element carries a "summary_text" field; a transport fault or a
malformed 200 body on any attempt escapes as an uncaught Python
exception instead of a structured result. -/
theorem C6_structured_unless_fault (state : SummaryState) (endpoint : Nat → Option Response)
    (h : ∀ i, i < 3 → ∃ r, endpoint i = some r ∧
      (r.status_code = 200 → ∃ s, extractSummaryText r = .ok s)) :
    ∃ st, (summarize_text state endpoint).2 = .ok st := by
  rw [summarize_text]
  exact loop_structured state.text endpoint (List.range 3)
    (fun a ha => h a (List.mem_range.mp ha))

/-- Witness for the amended C6 at the concrete always-503 endpoint. -/
theorem C6_witness :
    ∃ st, (summarize_text { text := "t", summary := .jstr "" } endpointAll503).2 = .ok st :=
  C6_structured_unless_fault { text := "t", summary := .jstr "" } endpointAll503
    (fun _ _ => ⟨{ status_code := 503, text := "busy", jsonV := none }, rfl,
      fun h200 => absurd h200 (by decide)⟩)

/-- Helper: the returned state and the attempt count do not depend on the
input text: runs with different input texts over the same endpoint issue
the same number of requests and produce the same summary outcome; only
the echoed `text` field (and the text carried by the posts) differs. -/
theorem loop_text_invariance (endpoint : Nat → Option Response) :
    ∀ (attempts : List Nat) (t1 t2 : String),
    postCount (summarizeLoop t1 endpoint attempts).1 =
      postCount (summarizeLoop t2 endpoint attempts).1 ∧
    Except.map SummaryState.summary (summarizeLoop t1 endpoint attempts).2 =
      Except.map SummaryState.summary (summarizeLoop t2 endpoint attempts).2 := by
  intro attempts
  induction attempts with
  | nil => exact fun t1 t2 => ⟨rfl, rfl⟩
  | cons a rest ih =>
    intro t1 t2
    cases hr : endpoint a with
    | none => simp [summarizeLoop, hr, postCount, isPost, Except.map]
    | some r =>
      by_cases h200 : r.status_code = 200
      · cases hex : extractSummaryText r with
        | ok s => simp [summarizeLoop, hr, h200, hex, postCount, isPost, Except.map]
        | error e => simp [summarizeLoop, hr, h200, hex, postCount, isPost, Except.map]
      · by_cases h503 : r.status_code = 503
        · have hrest := ih t1 t2
          simp only [summarizeLoop, hr, h200, h503, if_false, if_true, postCount,
            List.filter, isPost] at hrest ⊢
          exact ⟨by simp [hrest.1], hrest.2⟩
        · simp [summarizeLoop, hr, h200, h503, postCount, isPost, Except.map]

/-- Helper: the trace of any attempt iteration starts with the request
post carrying the input text. -/
theorem loop_head_post (text : String) (endpoint : Nat → Option Response)
    (a : Nat) (rest : List Nat) :
    ∃ tl, (summarizeLoop text endpoint (a :: rest)).1 = .post text :: tl := by
  cases hr : endpoint a with
  | none => exact ⟨[], by simp [summarizeLoop, hr]⟩
  | some r =>
    by_cases h200 : r.status_code = 200
    · cases hex : extractSummaryText r with
      | ok s => exact ⟨[], by simp [summarizeLoop, hr, h200, hex]⟩
      | error e => exact ⟨[], by simp [summarizeLoop, hr, h200, hex]⟩
    · by_cases h503 : r.status_code = 503
      · exact ⟨.warning (retryWarnMsg a) :: .sleepSeconds 2 ::
          (summarizeLoop text endpoint rest).1, by simp [summarizeLoop, hr, h200, h503]⟩
      · exact ⟨[.errorLog (clientErrMsg r)], by simp [summarizeLoop, hr, h200, h503]⟩

/-- C8: the empty input text is not rejected: the request is sent to the
endpoint carrying the empty text exactly as for any other input, at least
one attempt is issued, and the attempt count and summary outcome are the
same functions of the endpoint's responses as for every other input
text — there is no early `InvalidInput`-style failure. -/
theorem C8_empty_input_passed_through (endpoint : Nat → Option Response)
    (t : String) (s0 s1 : Json) :
    (∃ tl, (summarize_text { text := "", summary := s0 } endpoint).1 = .post "" :: tl) ∧
    1 ≤ postCount (summarize_text { text := "", summary := s0 } endpoint).1 ∧
    postCount (summarize_text { text := "", summary := s0 } endpoint).1 =
      postCount (summarize_text { text := t, summary := s1 } endpoint).1 ∧
    Except.map SummaryState.summary (summarize_text { text := "", summary := s0 } endpoint).2 =
      Except.map SummaryState.summary (summarize_text { text := t, summary := s1 } endpoint).2 := by
  refine ⟨?_, ?_, ?_, ?_⟩
  · exact loop_head_post "" endpoint 0 [1, 2]
  · obtain ⟨tl, htl⟩ := loop_head_post "" endpoint 0 [1, 2]
    rw [summarize_text, range_three, htl]
    have hp : postCount (Event.post "" :: tl) = postCount tl + 1 := by
      simp [postCount, List.filter, isPost]
    omega
  · exact (loop_text_invariance endpoint (List.range 3) "" t).1
  · exact (loop_text_invariance endpoint (List.range 3) "" t).2

/-- A second, separately defined endpoint returning the same responses as
`endpointAll503`, modelling a second identical run. -/
def endpointBusy : Nat → Option Response :=
  fun _ => some { status_code := 503, text := "busy", jsonV := none }

/-- C9: `summarize_text` is deterministic: two calls with the same input
state against endpoints delivering the same response on every attempt
produce identical traces and identical results.  The Python function
reads nothing but its input and the responses (the headers and payload
are fixed functions of the token and the input text), so the embedding is
a pure function of the two. -/
theorem C9_deterministic (state : SummaryState) (e1 e2 : Nat → Option Response)
    (h : ∀ i, e1 i = e2 i) :
    summarize_text state e1 = summarize_text state e2 := by
  have he : e1 = e2 := funext h
  rw [he]

/-- Witness for C9: two identical 503-every-time runs agree. -/
theorem C9_witness :
    summarize_text { text := "t", summary := .jstr "" } endpointAll503 =
      summarize_text { text := "t", summary := .jstr "" } endpointBusy :=
  C9_deterministic { text := "t", summary := .jstr "" } endpointAll503 endpointBusy
    (fun _ => rfl)

/-- Helper: in every branch of the loop the returned state echoes the
input text unchanged. -/
theorem loop_text_frame (text : String) (endpoint : Nat → Option Response) :
    ∀ (attempts : List Nat) (st : SummaryState),
    (summarizeLoop text endpoint attempts).2 = .ok st → st.text = text := by
  intro attempts
  induction attempts with
  | nil =>
    intro st h
    simp only [summarizeLoop, Except.ok.injEq] at h
    rw [← h]
  | cons a rest ih =>
    intro st h
    cases hr : endpoint a with
    | none => simp [summarizeLoop, hr] at h
    | some r =>
      by_cases h200 : r.status_code = 200
      · cases hex : extractSummaryText r with
        | ok s =>
          simp only [summarizeLoop, hr, h200, hex, if_true, Except.ok.injEq] at h
          rw [← h]
        | error e => simp [summarizeLoop, hr, h200, hex] at h
      · by_cases h503 : r.status_code = 503
        · simp only [summarizeLoop, hr, h200, h503, if_false, if_true] at h
          exact ih st h
        · simp only [summarizeLoop, hr, h200, h503, if_false, Except.ok.injEq] at h
          rw [← h]

/-- C10: in every branch (success, non-retryable error, exhausted
retries) the returned state's `text` field equals the input state's
`text` field: the input text is echoed unchanged, only `summary`
varies. -/
theorem C10_input_text_preserved (state : SummaryState) (endpoint : Nat → Option Response)
    (st : SummaryState) (h : (summarize_text state endpoint).2 = .ok st) :
    st.text = state.text :=
  loop_text_frame state.text endpoint (List.range 3) st h

/-- Witness for C10 at the concrete always-503 endpoint. -/
theorem C10_witness :
    ({ text := "t", summary := .jstr "Summarization failed." } : SummaryState).text =
      ({ text := "t", summary := .jstr "" } : SummaryState).text :=
  C10_input_text_preserved { text := "t", summary := .jstr "" } endpointAll503
    { text := "t", summary := .jstr "Summarization failed." } rfl
